import Mathlib

/-!
Verification of the test-assistant backend (JIRA issue → AI-generated QA
test-case documents with versioning, publication and pagination).

The definitions below are a shallow embedding of the JavaScript source:
  * `src/routes/generations.js`  — the HTTP route handlers (preflight,
    list, create, view, edit, publish, download, delete);
  * the Mongoose `Generation` schema (status/error/result/version fields);
  * `OpenAIService.generateTestCase` — model invocation with retry/backoff
    and cost accounting;
  * `projectUtils.extractProject`.
JavaScript numbers are modelled as `Nat`/`Int`/`ℚ` (`Option Int` where `NaN`
can arise), absent (`undefined`/`null`) values as `Option`, and thrown
exceptions as `Except`.
-/

/-! ### JavaScript-semantics helpers -/

/-- `a || b` for string-valued expressions: `undefined`, `null` and the empty
string are falsy, so they fall through to the default `b`. -/
def jsOrString (a : Option String) (b : String) : String :=
  match a with
  | some s => if s = "" then b else s
  | none => b

/-- Does `cs` start with the character list `pat`? (helper for `strIncludes`) -/
def charsStartWith : List Char → List Char → Bool
  | _, [] => true
  | [], _ :: _ => false
  | c :: cs, p :: ps => c = p && charsStartWith cs ps

/-- Does `cs` contain `pat` as a contiguous run? (helper for `strIncludes`) -/
def charsInclude (pat : List Char) : List Char → Bool
  | [] => pat.isEmpty
  | c :: rest => charsStartWith (c :: rest) pat || charsInclude pat rest

/-- JavaScript `s.includes(pat)`. -/
def strIncludes (s pat : String) : Bool :=
  charsInclude pat.toList s.toList

/-- Leading decimal digits of a character list. -/
def leadingDigits (cs : List Char) : List Char :=
  cs.takeWhile Char.isDigit

/-- Numeric value of a digit list (most significant first). -/
def digitsToNat (ds : List Char) : Nat :=
  ds.foldl (fun acc c => acc * 10 + (c.toNat - '0'.toNat)) 0

/-- Whitespace trimming on character lists (JS `trim` before `parseInt`). -/
def trimChars (cs : List Char) : List Char :=
  ((cs.dropWhile Char.isWhitespace).reverse.dropWhile Char.isWhitespace).reverse

/-- JavaScript `parseInt(s, 10)`: trim whitespace, optional sign, then the
longest run of leading decimal digits; `NaN` (here `none`) when no digit is
found. Trailing garbage is ignored. -/
def parseIntJS (s : String) : Option Int :=
  let cs := trimChars s.toList
  match cs with
  | '-' :: rest =>
      let ds := leadingDigits rest
      if ds.isEmpty then none else some (-(digitsToNat ds : Int))
  | '+' :: rest =>
      let ds := leadingDigits rest
      if ds.isEmpty then none else some (digitsToNat ds : Int)
  | _ =>
      let ds := leadingDigits cs
      if ds.isEmpty then none else some (digitsToNat ds : Int)

/-- JavaScript `Math.max` on possibly-`NaN` integers: `NaN` propagates. -/
def jsMax (a b : Option Int) : Option Int :=
  match a, b with
  | some x, some y => some (max x y)
  | _, _ => none

/-- JavaScript `Math.min` on possibly-`NaN` integers: `NaN` propagates. -/
def jsMin (a b : Option Int) : Option Int :=
  match a, b with
  | some x, some y => some (min x y)
  | _, _ => none

/-! ### Data model (`Generation` Mongoose schema) -/

/-- `mode: { type: String, enum: ['manual', 'auto'] }`. -/
inductive Mode where
  | manual
  | auto
deriving DecidableEq

/-- `status: { type: String, enum: ['completed', 'failed'] }`; an in-flight
record carries no status, hence `Option Status` in `Generation`. -/
inductive Status where
  | completed
  | failed
deriving DecidableEq

/-- `versionSchema`: one snapshot in the `version[]` history. -/
structure VersionEntry where
  version : Nat
  content : String
  updatedAt : Nat
  updatedBy : String
  notes : Option String := none
deriving DecidableEq

/-- `markdownSchema`: `result.markdown` subdocument. -/
structure Markdown where
  content : Option String
  filename : Option String
deriving DecidableEq

/-- The `result` subdocument: `result: { markdown: markdownSchema }`. -/
structure GenResult where
  markdown : Option Markdown
deriving DecidableEq

/-- `tokenUsage` subdocument. -/
structure TokenUsage where
  promptTokens : Nat
  completionTokens : Nat
  totalTokens : Nat
deriving DecidableEq

/-- The `Generation` document (fields relevant to the verified routes).
Timestamps are abstract `Nat` instants; `cost` is exact (`ℚ`). -/
structure Generation where
  issueKey : String
  email : String
  mode : Option Mode := none
  status : Option Status := none
  createdAt : Nat := 0
  startedAt : Option Nat := none
  completedAt : Option Nat := none
  generationTimeSeconds : Option ℚ := none
  cost : Option ℚ := none
  tokenUsage : Option TokenUsage := none
  result : Option GenResult := none
  error : Option String := none
  published : Bool := false
  publishedAt : Option Nat := none
  publishedBy : Option String := none
  version : List VersionEntry := []
  currentVersion : Nat := 1
deriving DecidableEq

/-- `gen.result?.markdown?.content || ''`. -/
def contentOfGen (g : Generation) : String :=
  ((g.result.bind GenResult.markdown).bind Markdown.content).getD ""

/-- `gen.result?.markdown?.filename || 'output.md'`. -/
def filenameOfGen (g : Generation) : String :=
  ((g.result.bind GenResult.markdown).bind Markdown.filename).getD "output.md"

/-- `gen.currentVersion || 1` (0 and a missing value are falsy). -/
def currentVersionOr1 (g : Generation) : Nat :=
  if g.currentVersion = 0 then 1 else g.currentVersion

/-! ### Route operations (`src/routes/generations.js`) -/

/-- Error responses shared by the mutating routes: 400 with a message, or the
ownership/existence-collapsing 404. -/
inductive HttpError where
  | badRequest : String → HttpError
  | notFound : HttpError
deriving DecidableEq

/-- The generation document freshly created by `POST /testcases`
(`new Generation({ issueKey, email, project, mode: 'manual', startedAt })`);
all other fields take their schema defaults. -/
def newGeneration (issueKey email : String) (startedAt : Nat) : Generation :=
  { issueKey := issueKey
    email := email
    mode := some Mode.manual
    startedAt := some startedAt }

/-- JIRA fetch failure branch of `POST /testcases`: `status = 'failed'`,
`error = issueResult.error || 'Failed to fetch JIRA issue'`, `completedAt`
stamped. -/
def markJiraFailed (g : Generation) (issueError : Option String) (now : Nat) : Generation :=
  { g with
    status := some Status.failed
    error := some (jsOrString issueError "Failed to fetch JIRA issue")
    completedAt := some now }

/-- OpenAI failure branch of `POST /testcases`: `status = 'failed'`,
`error = "OpenAI generation failed: " + message`, `completedAt` stamped. -/
def markOpenAIFailed (g : Generation) (msg : String) (now : Nat) : Generation :=
  { g with
    status := some Status.failed
    error := some ("OpenAI generation failed: " ++ msg)
    completedAt := some now }

/-- Success branch of `POST /testcases`: stamp completion, store the result
markdown under the synthesized filename, reset `currentVersion`/`version`. -/
def completeGeneration (g : Generation) (genId markdownContent : String)
    (cost : Option ℚ) (tokenUsage : Option TokenUsage)
    (generationTimeSeconds : ℚ) (now : Nat) : Generation :=
  { g with
    status := some Status.completed
    completedAt := some now
    generationTimeSeconds := some generationTimeSeconds
    cost := cost
    tokenUsage := tokenUsage
    result := some
      { markdown := some
          { filename := some (g.issueKey ++ "_testcases_" ++ genId ++ ".md")
            content := some markdownContent } }
    currentVersion := 1
    version := [] }

/-- `if (!gen.result) gen.result = {}; if (!gen.result.markdown)
gen.result.markdown = {}; gen.result.markdown.content = content`. -/
def setMarkdownContent (g : Generation) (c : String) : Generation :=
  let r := g.result.getD { markdown := none }
  let m := r.markdown.getD { content := none, filename := none }
  { g with result := some { markdown := some { m with content := some c } } }

/-- Body of the edit route's success response. -/
structure EditResponse where
  content : String
  currentVersion : Nat
deriving DecidableEq

/-- The version-tracking block of `PUT /:id/content`: when the stored content
is truthy (non-empty) and differs from the new content, push a snapshot of it
under `currentVersionNum = gen.currentVersion || 1` (skipped when an entry
with that number already exists) and set `currentVersion = currentVersionNum
+ 1`; otherwise leave the document untouched. -/
def editApplied (gen : Generation) (requesterEmail newContent : String)
    (now : Nat) : Generation :=
  if contentOfGen gen ≠ "" ∧ contentOfGen gen ≠ newContent then
    if gen.version.any (fun v => v.version = currentVersionOr1 gen) then
      { gen with currentVersion := currentVersionOr1 gen + 1 }
    else
      { gen with
        version := gen.version ++
          [{ version := currentVersionOr1 gen
             content := contentOfGen gen
             updatedAt := now
             updatedBy := requesterEmail }]
        currentVersion := currentVersionOr1 gen + 1 }
  else gen

/-- `PUT /:id/content` (Version Store `updateContent`): not-found collapse for
missing record or non-owner, 400 unless `status = 'completed'`; then the
version-tracking block (`editApplied`), and in every case the stored content
is overwritten with the new content. The response carries the new content and
`gen.currentVersion || 1`. -/
def updateContent (gen? : Option Generation) (requesterEmail newContent : String)
    (now : Nat) : Except HttpError (Generation × EditResponse) :=
  match gen? with
  | none => Except.error HttpError.notFound
  | some gen =>
    if gen.email ≠ requesterEmail then Except.error HttpError.notFound
    else if gen.status ≠ some Status.completed then
      Except.error (HttpError.badRequest "Can only update completed generations")
    else
      Except.ok (setMarkdownContent (editApplied gen requesterEmail newContent now) newContent,
        { content := newContent
          currentVersion :=
            currentVersionOr1
              (setMarkdownContent (editApplied gen requesterEmail newContent now) newContent) })

/-- `PUT /:id/publish` (Publication Gate `setPublished`): not-found collapse,
completed-only; publishing stamps `publishedAt`/`publishedBy`, unpublishing
clears both. -/
def setPublished (gen? : Option Generation) (requesterEmail : String)
    (desired : Bool) (now : Nat) : Except HttpError Generation :=
  match gen? with
  | none => Except.error HttpError.notFound
  | some gen =>
    if gen.email ≠ requesterEmail then Except.error HttpError.notFound
    else if gen.status ≠ some Status.completed then
      Except.error (HttpError.badRequest "Can only publish completed generations")
    else if desired then
      Except.ok { gen with
        published := true
        publishedAt := some now
        publishedBy := some requesterEmail }
    else
      Except.ok { gen with
        published := false
        publishedAt := none
        publishedBy := none }

/-- The access predicate shared by the view and download routes:
owner, or published and completed. -/
def canView (gen : Generation) (requesterEmail : String) : Bool :=
  gen.email == requesterEmail ||
    (gen.published && decide (gen.status = some Status.completed))

/-- Observable outcome of `GET /:id/view`. -/
inductive ViewOutcome where
  | notFound
  | ok (content filename : String) (currentVersion : Nat) (version : List VersionEntry)
deriving DecidableEq

/-- `GET /:id/view`: 404 for missing record or failed access check, otherwise
the stored content with version metadata. -/
def viewHandler (gen? : Option Generation) (requesterEmail : String) : ViewOutcome :=
  match gen? with
  | none => ViewOutcome.notFound
  | some gen =>
    if !(gen.email == requesterEmail) &&
        !(gen.published && decide (gen.status = some Status.completed)) then
      ViewOutcome.notFound
    else ViewOutcome.ok (contentOfGen gen) (filenameOfGen gen)
      (currentVersionOr1 gen) gen.version

/-- Observable outcome of `GET /:id/download`. -/
inductive DownloadOutcome where
  | notFound
  | notCompleted
  | file (filename content : String)
deriving DecidableEq

/-- `GET /:id/download`: 404 for missing record or failed access check, then a
further `status !== 'completed'` check answering 400, then the file. -/
def downloadHandler (gen? : Option Generation) (requesterEmail : String) : DownloadOutcome :=
  match gen? with
  | none => DownloadOutcome.notFound
  | some gen =>
    if !(gen.email == requesterEmail) &&
        !(gen.published && decide (gen.status = some Status.completed)) then
      DownloadOutcome.notFound
    else if gen.status ≠ some Status.completed then DownloadOutcome.notCompleted
    else DownloadOutcome.file (filenameOfGen gen) (contentOfGen gen)

/-! ### OpenAI service (`OpenAIService.generateTestCase`) -/

/-- The manual-mode system prompt (`MANUAL_PROMPT`). -/
def MANUAL_PROMPT : String :=
  "You are an expert manual QA Engineer. Generate comprehensive test cases from JIRA issue descriptions.\n\n**Context:** You will receive JIRA issue details including title, description, comments, and acceptance criteria. Use ONLY this information - never invent requirements.\n\n**Output Requirements:**\n1. Use proper markdown with ## for main headings and - for bullet points\n2. Include a title: \"# Test Cases for [JIRA-ID]: [Issue Title]\"\n3. Structure by categories: ## **Functional Requirements**, ## **UI & Visual Validation**, ## **Edge Cases**, ## **Data Integrity** (if applicable)\n4. Include blank lines before and after lists\n5. Each test case should be:\n   - Clear and actionable\n   - Cover specific acceptance criteria\n   - Include preconditions, steps, and expected results\n   - Prioritized (High/Medium/Low)\n\n**Must NOT:**\n- Never mention specific individual names\n- Never include implementation details (HTML classes, functions)\n- Never invent requirements not in the JIRA issue\n\n**Coverage:**\n- Positive and negative test cases\n- Edge cases and boundary conditions\n- Error handling\n- User workflows\n- Form validations\n- State transitions\n- Accessibility considerations (if UI-related)\n\nGenerate comprehensive test cases now."

/-- The auto-mode system prompt (`AUTO_PROMPT`). -/
def AUTO_PROMPT : String :=
  "You are an expert QA automation specialist. Generate automation-friendly test cases from JIRA issue descriptions.\n\n**Context:** You will receive JIRA issue details. Use ONLY this information - never invent requirements.\n\n**Output Requirements:**\n1. Use proper markdown format\n2. Title: \"# Automation Tests for [JIRA-ID]: [Issue Title]\"\n3. Structure tests by acceptance criteria\n4. Include blank lines before and after lists\n5. Each test should specify:\n   - Clear, automatable steps\n   - Specific UI elements or data to verify\n   - Assertion points\n   - Test data requirements\n\n**Must NOT:**\n- Never include subjective validations\n- Never write vague steps\n- Never include non-verifiable assertions\n\n**Focus on:**\n- Idempotent, independent test scenarios\n- Clear element identification strategies\n- Repeatable test data\n- Programmatically verifiable assertions\n- Error handling in automation\n- State management\n\nGenerate automation-friendly test cases now."

/-- `const systemPrompt = autoMode ? AUTO_PROMPT : MANUAL_PROMPT`. -/
def systemPromptFor (autoMode : Bool) : String :=
  if autoMode then AUTO_PROMPT else MANUAL_PROMPT

/-- One chat message (`{ role, content }`). -/
structure ChatMessage where
  role : String
  content : String
deriving DecidableEq

/-- The message list built by `generateTestCase(context, issueKey, autoMode = false)`:
the mode-selected system prompt followed by the issue-context user message.
`autoMode` defaults to `false`, exactly as in the source signature. -/
def generateTestCaseMessages (context issueKey : String) (autoMode : Bool := false) :
    List ChatMessage :=
  [ { role := "system", content := systemPromptFor autoMode },
    { role := "user", content := "\n\nJIRA issue: " ++ issueKey ++ "\n\n" ++ context } ]

/-- Raw `response.usage` object (each field may be absent, `|| 0` applies). -/
structure RawUsage where
  prompt_tokens : Option Nat := none
  completion_tokens : Option Nat := none
  total_tokens : Option Nat := none
deriving DecidableEq

/-- One raw chat-completion response: `choices[0]?.message?.content` and
`usage`. -/
structure ChatResponse where
  content : Option String := none
  usage : Option RawUsage := none
deriving DecidableEq

/-- Value returned by a successful `generateTestCase` call. -/
structure GenOutput where
  content : String
  tokenUsage : TokenUsage
  cost : ℚ
deriving DecidableEq

/-- gpt-4o-mini pricing: `(promptTokens/1e6)*0.15 + (completionTokens/1e6)*0.60`. -/
def computeCost (promptTokens completionTokens : Nat) : ℚ :=
  ((promptTokens : ℚ) / 1000000) * 0.15 + ((completionTokens : ℚ) / 1000000) * 0.60

/-- Body of one attempt inside the retry loop: an API error propagates, a
response without content raises `Empty response from OpenAI` (also caught by
the retry handler), otherwise usage is read (`|| 0`) and the cost computed. -/
def attemptOutcome (resp : Except String ChatResponse) : Except String GenOutput :=
  match resp with
  | Except.error e => Except.error e
  | Except.ok r =>
    match r.content with
    | none => Except.error "Empty response from OpenAI"
    | some c =>
      if c = "" then Except.error "Empty response from OpenAI"
      else
        let usage := r.usage.getD {}
        let tu : TokenUsage :=
          { promptTokens := usage.prompt_tokens.getD 0
            completionTokens := usage.completion_tokens.getD 0
            totalTokens := usage.total_tokens.getD 0 }
        Except.ok { content := c, tokenUsage := tu,
                    cost := computeCost tu.promptTokens tu.completionTokens }

/-- `this.maxRetries = 3`. -/
def maxRetries : Nat := 3

/-- The retry loop, indexed by the current `retryCount` and the number of
retries still allowed (`maxRetries - retryCount`). On failure with retries
left, wait `Math.pow(2, retryCount + 1) * 1000` milliseconds and try again;
otherwise rethrow the last error. Returns the final outcome together with the
list of backoff waits (in milliseconds) actually performed. -/
def retryAux (oracle : Nat → Except String ChatResponse) (retryCount : Nat) :
    Nat → Except String GenOutput × List Nat
  | 0 =>
    match attemptOutcome (oracle retryCount) with
    | Except.ok out => (Except.ok out, [])
    | Except.error e => (Except.error e, [])
  | rem + 1 =>
    match attemptOutcome (oracle retryCount) with
    | Except.ok out => (Except.ok out, [])
    | Except.error _ =>
      let rest := retryAux oracle (retryCount + 1) rem
      (rest.1, 2 ^ (retryCount + 1) * 1000 :: rest.2)

/-- `generateTestCase`'s model-invocation phase: the retry loop started at
`retryCount = 0` with `maxRetries = 3` retries available. The `oracle` gives
the raw outcome of attempt number `i` (0-based). -/
def generateTestCaseRetry (oracle : Nat → Except String ChatResponse) :
    Except String GenOutput × List Nat :=
  retryAux oracle 0 maxRetries

/-! ### Preflight route (`POST /preflight`) -/

/-- One JIRA attachment (only `mimeType` is consulted). -/
structure Attachment where
  mimeType : Option String := none
deriving DecidableEq

/-- `att => att.mimeType?.startWiths('image/')`: when `mimeType` is absent the
optional chain yields `undefined` (falsy); when it is present, `startWiths` is
not a method of strings, so the callback throws a `TypeError`. -/
def imageAttachmentTest (att : Attachment) : Except String Bool :=
  match att.mimeType with
  | none => Except.ok false
  | some _ => Except.error "TypeError: att.mimeType?.startWiths is not a function"

/-- `attachment.filter(att => att.mimeType?.startWiths('image/'))`: the first
throwing callback aborts the whole filter. -/
def filterImageAttachments : List Attachment → Except String (List Attachment)
  | [] => Except.ok []
  | a :: rest =>
    match imageAttachmentTest a with
    | Except.error e => Except.error e
    | Except.ok b =>
      match filterImageAttachments rest with
      | Except.error e => Except.error e
      | Except.ok r => Except.ok (if b then a :: r else r)

/-- The status-code heuristic used by the preflight route on a JIRA fetch
failure: `authentication`/`forbidden` → 401, `not found` → 404, else 500. -/
def classifyJiraError (msg : String) : Nat :=
  if strIncludes msg "authentication" || strIncludes msg "forbidden" then 401
  else if strIncludes msg "not found" then 404
  else 500

/-- `issue.fields` data consumed by the routes; `descriptionText` stands for
the external `extractTextFromADF(fields.description)` result. -/
structure IssueFields where
  summary : Option String := none
  descriptionText : Option String := none
  attachment : List Attachment := []
deriving DecidableEq

/-- `jira.getIssue(issueKey)` result: `{ success, issue, error }` (the
`issue.fields` part is flattened into `fields`). -/
structure IssueResult where
  success : Bool
  fields : Option IssueFields := none
  error : Option String := none
deriving DecidableEq

/-- Observable outcome of `POST /preflight`. -/
inductive PreflightOutcome where
  | badRequest (msg : String)
  | fetchError (statusCode : Nat) (errorBody : String)
  | thrown (msg : String)
  | estimate (estimatedTokens : ℤ) (estimatedCost : ℚ)
deriving DecidableEq

/-- `POST /preflight`: validate `issueKey`, fetch the issue, classify fetch
errors by message content, then estimate tokens
(`Math.ceil(contextCharacter / 4) + imageAttachments.length * 200`) and cost
(`(estimatedTokens / 1e6) * 0.15 + (8000 / 1e6) * 0.60`). -/
def preflightHandler (issueKey : String) (issueResult : IssueResult) : PreflightOutcome :=
  if issueKey = "" then PreflightOutcome.badRequest "issueKey required"
  else if issueResult.success = false then
    match issueResult.error with
    | none => PreflightOutcome.thrown "TypeError: Cannot read properties of undefined"
    | some e =>
        PreflightOutcome.fetchError (classifyJiraError e)
          (jsOrString (some e) "Issue not found in JIRA")
  else
    let fields := issueResult.fields.getD {}
    let summary := jsOrString fields.summary ""
    let description := jsOrString fields.descriptionText ""
    match filterImageAttachments fields.attachment with
    | Except.error e => PreflightOutcome.thrown e
    | Except.ok imageAttachments =>
      let contextText := summary ++ " " ++ description
      let contextCharacter := contextText.length
      let estimatedTokens : ℤ :=
        ⌈(contextCharacter : ℚ) / 4⌉ + imageAttachments.length * 200
      let estimatedCost : ℚ :=
        ((estimatedTokens : ℚ) / 1000000) * 0.15 + ((8000 : ℚ) / 1000000) * 0.60
      PreflightOutcome.estimate estimatedTokens estimatedCost

/-! ### Create route (`POST /testcases`) -/

/-- Observable outcome of `POST /testcases`. -/
inductive TestcasesOutcome where
  | badRequest (msg : String)
  | jiraFailed (g : Generation) (errorBody : Option String)
  | openaiFailed (g : Generation) (errorBody : String)
  | success (g : Generation) (markdown : String)
deriving DecidableEq

/-- HTTP status code sent with each `POST /testcases` outcome. -/
def responseStatus : TestcasesOutcome → Nat
  | TestcasesOutcome.badRequest _ => 400
  | TestcasesOutcome.jiraFailed _ _ => 404
  | TestcasesOutcome.openaiFailed _ _ => 500
  | TestcasesOutcome.success _ _ => 200

/-- `POST /testcases` (Generation Engine `createGeneration`): validate the
issue key, persist the in-flight record, fetch the issue once (`fetchIssue 0`),
run the model with retries, normalize the markdown (prepend a synthesized
title when it lacks a leading `#`), and resolve the record to its terminal
state. `genId` is the Mongo id, `elapsedSeconds` the rounded elapsed time. -/
def testcasesHandler (issueKey email : String) (fetchIssue : Nat → IssueResult)
    (modelOracle : Nat → Except String ChatResponse)
    (startedAt now : Nat) (genId : String) (elapsedSeconds : ℚ) : TestcasesOutcome :=
  if issueKey = "" then TestcasesOutcome.badRequest "issueKey required"
  else
    let generation := newGeneration issueKey email startedAt
    let issueResult := fetchIssue 0
    if issueResult.success = false then
      TestcasesOutcome.jiraFailed (markJiraFailed generation issueResult.error now)
        issueResult.error
    else
      let fields := issueResult.fields.getD {}
      let summary := jsOrString fields.summary ""
      match generateTestCaseRetry modelOracle with
      | (Except.error e, _) =>
          TestcasesOutcome.openaiFailed (markOpenAIFailed generation e now) e
      | (Except.ok out, _) =>
        let markdownContent :=
          if out.content.startsWith "#" then out.content
          else "# Test Cases for " ++ issueKey ++ ": " ++
            (if summary = "" then "Untitled" else summary) ++ "\n\n" ++ out.content
        TestcasesOutcome.success
          (completeGeneration generation genId markdownContent (some out.cost)
            (some out.tokenUsage) elapsedSeconds now)
          markdownContent

/-! ### List route (`GET /`) -/

/-- The Mongo filter for `filter ∈ {mine, published, all}`. -/
def matchesFilter (filterType requesterEmail : String) (g : Generation) : Bool :=
  if filterType = "mine" then g.email == requesterEmail
  else if filterType = "published" then
    g.published && decide (g.status = some Status.completed)
  else
    g.email == requesterEmail ||
      (g.published && decide (g.status = some Status.completed))

/-- `.sort({ createdAt: -1 })`: newest first. -/
def byCreatedAtDesc (a b : Generation) : Prop := b.createdAt ≤ a.createdAt

instance : DecidableRel byCreatedAtDesc := fun _ _ => Nat.decLe _ _

instance : IsTotal Generation byCreatedAtDesc :=
  ⟨fun a b => Nat.le_total b.createdAt a.createdAt⟩

instance : IsTrans Generation byCreatedAtDesc :=
  ⟨fun _ _ _ h1 h2 => Nat.le_trans h2 h1⟩

/-- Stable sort of the matching generations, newest first. -/
def sortByCreatedAtDesc (l : List Generation) : List Generation :=
  List.insertionSort byCreatedAtDesc l

/-- `Math.max(1, parseInt(req.query.page || '1', 10))`. -/
def effPage (pageQ : Option String) : Option Int :=
  jsMax (some 1) (parseIntJS (jsOrString pageQ "1"))

/-- `Math.min(50, Math.max(1, parseInt(req.query.limit || '10', 10)))`. -/
def effLimit (limitQ : Option String) : Option Int :=
  jsMin (some 50) (jsMax (some 1) (parseIntJS (jsOrString limitQ "10")))

/-- `skip = (page - 1) * limit` (NaN propagates). -/
def skipOf (page limit : Option Int) : Option Int :=
  match page, limit with
  | some p, some l => some ((p - 1) * l)
  | _, _ => none

/-- `pages = Math.ceil(total / limit)`. -/
def pagesOf (total : Nat) (limit : Int) : ℤ :=
  ⌈(total : ℚ) / (limit : ℚ)⌉

/-- The page slice actually returned: filter, sort newest-first, skip, limit. -/
def listPage (db : List Generation) (requesterEmail filterType : String)
    (skip limit : Nat) : List Generation :=
  ((sortByCreatedAtDesc (db.filter (matchesFilter filterType requesterEmail))).drop
    skip).take limit

/-! ### Reachable generation states -/

/-- Generation documents reachable through the persisting routes: the
in-flight record of `POST /testcases` and its three terminal resolutions, plus
any number of edit and publish steps. -/
inductive Reachable : Generation → Prop where
  | inflight (issueKey email : String) (startedAt : Nat) :
      Reachable (newGeneration issueKey email startedAt)
  | jiraFailStep (issueKey email : String) (startedAt : Nat)
      (issueError : Option String) (now : Nat) :
      Reachable (markJiraFailed (newGeneration issueKey email startedAt) issueError now)
  | openaiFailStep (issueKey email : String) (startedAt now : Nat) (msg : String) :
      Reachable (markOpenAIFailed (newGeneration issueKey email startedAt) msg now)
  | completeStep (issueKey email : String) (startedAt now : Nat)
      (genId markdownContent : String) (cost : Option ℚ) (tu : Option TokenUsage)
      (t : ℚ) :
      Reachable (completeGeneration (newGeneration issueKey email startedAt)
        genId markdownContent cost tu t now)
  | editStep (g g' : Generation) (resp : EditResponse)
      (requesterEmail newContent : String) (now : Nat) :
      Reachable g → updateContent (some g) requesterEmail newContent now =
        Except.ok (g', resp) → Reachable g'
  | publishStep (g g' : Generation) (requesterEmail : String) (desired : Bool)
      (now : Nat) :
      Reachable g → setPublished (some g) requesterEmail desired now = Except.ok g' →
      Reachable g'

/-- The §3 schema invariant: `status = failed` ⟺ `error` is a non-empty
string and `result.markdown` is absent. -/
def failedIffErrorAndNoMarkdown (g : Generation) : Prop :=
  g.status = some Status.failed ↔
    ((∃ e, g.error = some e ∧ e ≠ "") ∧ g.result.bind GenResult.markdown = none)

/-! ### Helper lemmas -/

theorem contentOfGen_setMarkdownContent (g : Generation) (c : String) :
    contentOfGen (setMarkdownContent g c) = c := by
  simp [contentOfGen, setMarkdownContent]

theorem setMarkdownContent_currentVersion (g : Generation) (c : String) :
    (setMarkdownContent g c).currentVersion = g.currentVersion := rfl

theorem setMarkdownContent_version (g : Generation) (c : String) :
    (setMarkdownContent g c).version = g.version := rfl

theorem setMarkdownContent_email (g : Generation) (c : String) :
    (setMarkdownContent g c).email = g.email := rfl

theorem setMarkdownContent_status (g : Generation) (c : String) :
    (setMarkdownContent g c).status = g.status := rfl

theorem currentVersionOr1_of_pos (g : Generation) (h : 1 ≤ g.currentVersion) :
    currentVersionOr1 g = g.currentVersion := by
  unfold currentVersionOr1
  split <;> omega

theorem currentVersionOr1_setMarkdownContent (g : Generation) (c : String) :
    currentVersionOr1 (setMarkdownContent g c) = currentVersionOr1 g := rfl

/-- Successful shape of an owner's edit of a completed generation. -/
theorem updateContent_eq_ok (gen : Generation) (r c : String) (now : Nat)
    (hOwner : gen.email = r) (hSt : gen.status = some Status.completed) :
    updateContent (some gen) r c now = Except.ok
      (setMarkdownContent (editApplied gen r c now) c,
       { content := c
         currentVersion :=
           currentVersionOr1 (setMarkdownContent (editApplied gen r c now) c) }) := by
  simp only [updateContent]
  rw [if_neg (by simp [hOwner]), if_neg (by simp [hSt])]

/-- The version-tracking block when the stored content changes and no snapshot
with the current version number exists yet. -/
theorem editApplied_change_fresh (gen : Generation) (r c : String) (now : Nat)
    (hne : contentOfGen gen ≠ "") (hdiff : contentOfGen gen ≠ c)
    (hex : gen.version.any (fun v => v.version = currentVersionOr1 gen) = false) :
    editApplied gen r c now =
      { gen with
        version := gen.version ++
          [{ version := currentVersionOr1 gen, content := contentOfGen gen,
             updatedAt := now, updatedBy := r }]
        currentVersion := currentVersionOr1 gen + 1 } := by
  unfold editApplied
  rw [if_pos (And.intro hne hdiff), if_neg (by simp [hex])]

/-- The version-tracking block when the stored content changes but a snapshot
with the current version number is already recorded. -/
theorem editApplied_change_existing (gen : Generation) (r c : String) (now : Nat)
    (hne : contentOfGen gen ≠ "") (hdiff : contentOfGen gen ≠ c)
    (hex : gen.version.any (fun v => v.version = currentVersionOr1 gen) = true) :
    editApplied gen r c now = { gen with currentVersion := currentVersionOr1 gen + 1 } := by
  unfold editApplied
  rw [if_pos (And.intro hne hdiff), if_pos hex]

/-- The version-tracking block is skipped when the stored content is empty or
equal to the incoming content. -/
theorem editApplied_nochange (gen : Generation) (r c : String) (now : Nat)
    (h : ¬(contentOfGen gen ≠ "" ∧ contentOfGen gen ≠ c)) :
    editApplied gen r c now = gen := by
  unfold editApplied
  rw [if_neg h]

/-! ### C1 — edit-route versioning -/

/-- C1 (amended): for every edit of an existing, owner-requested, completed
generation, the call succeeds; afterwards the stored content equals the new
content, and the response echoes it. When the stored content is non-empty and
differs from the new content, the outgoing content is snapshotted under the
current `currentVersion` number (skipped when a snapshot with that number
already exists) and `currentVersion` is incremented by 1. When the new content
equals the stored content, `currentVersion` and `version[]` are unchanged. -/
theorem C1_updateContent_versioning (gen : Generation) (r c : String) (now : Nat)
    (hOwner : gen.email = r) (hSt : gen.status = some Status.completed)
    (hVer : 1 ≤ gen.currentVersion) :
    (∃ g' resp, updateContent (some gen) r c now = Except.ok (g', resp)) ∧
    ∀ g' resp, updateContent (some gen) r c now = Except.ok (g', resp) →
      contentOfGen g' = c ∧ resp.content = c ∧
      (contentOfGen gen ≠ "" → contentOfGen gen ≠ c →
        g'.currentVersion = gen.currentVersion + 1 ∧
        g'.version =
          (if gen.version.any (fun v => v.version = gen.currentVersion) then gen.version
           else gen.version ++
             [{ version := gen.currentVersion, content := contentOfGen gen,
                updatedAt := now, updatedBy := r }])) ∧
      (contentOfGen gen = c →
        g'.currentVersion = gen.currentVersion ∧ g'.version = gen.version) := by
  have hok := updateContent_eq_ok gen r c now hOwner hSt
  have hcv := currentVersionOr1_of_pos gen hVer
  refine ⟨⟨_, _, hok⟩, ?_⟩
  intro g' resp h
  rw [hok] at h
  injection h with hpair
  injection hpair with hg hr
  subst hg
  subst hr
  refine ⟨contentOfGen_setMarkdownContent _ _, rfl, ?_, ?_⟩
  · intro hne hdiff
    by_cases hex : gen.version.any (fun v => v.version = gen.currentVersion) = true
    · have hex2 : gen.version.any (fun v => v.version = currentVersionOr1 gen) = true := by
        rw [hcv]; exact hex
      rw [setMarkdownContent_currentVersion, setMarkdownContent_version,
        editApplied_change_existing gen r c now hne hdiff hex2, if_pos hex, hcv]
      exact ⟨rfl, rfl⟩
    · have hex2 : gen.version.any (fun v => v.version = currentVersionOr1 gen) = false := by
        rw [hcv]; exact Bool.not_eq_true _ ▸ (Bool.of_not_eq_true hex)
      rw [setMarkdownContent_currentVersion, setMarkdownContent_version,
        editApplied_change_fresh gen r c now hne hdiff hex2, if_neg hex, hcv]
      exact ⟨rfl, rfl⟩
  · intro heq
    have hno : ¬(contentOfGen gen ≠ "" ∧ contentOfGen gen ≠ c) := by
      intro hcontra
      exact hcontra.2 heq
    rw [setMarkdownContent_currentVersion, setMarkdownContent_version,
      editApplied_nochange gen r c now hno]
    exact ⟨rfl, rfl⟩

/-- A concrete completed generation with non-empty stored content. -/
def sampleDoc : Generation :=
  { issueKey := "KAN-7"
    email := "qa@example.com"
    mode := some Mode.manual
    status := some Status.completed
    result := some
      { markdown := some
          { content := some "# doc", filename := some "KAN-7_testcases_1.md" } } }

/-- Witness for C1 at a concrete edit of `sampleDoc`. -/
theorem C1_witness :
    sampleDoc.email = "qa@example.com" ∧ sampleDoc.status = some Status.completed ∧
    1 ≤ sampleDoc.currentVersion ∧
    ((∃ g' resp,
        updateContent (some sampleDoc) "qa@example.com" "# doc v2" 9 = Except.ok (g', resp)) ∧
      ∀ g' resp,
        updateContent (some sampleDoc) "qa@example.com" "# doc v2" 9 = Except.ok (g', resp) →
        contentOfGen g' = "# doc v2" ∧ resp.content = "# doc v2" ∧
        (contentOfGen sampleDoc ≠ "" → contentOfGen sampleDoc ≠ "# doc v2" →
          g'.currentVersion = sampleDoc.currentVersion + 1 ∧
          g'.version =
            (if sampleDoc.version.any (fun v => v.version = sampleDoc.currentVersion) then
              sampleDoc.version
             else sampleDoc.version ++
               [{ version := sampleDoc.currentVersion, content := contentOfGen sampleDoc,
                  updatedAt := 9, updatedBy := "qa@example.com" }])) ∧
        (contentOfGen sampleDoc = "# doc v2" →
          g'.currentVersion = sampleDoc.currentVersion ∧ g'.version = sampleDoc.version)) :=
  ⟨rfl, rfl, by decide,
    C1_updateContent_versioning sampleDoc "qa@example.com" "# doc v2" 9 rfl rfl (by decide)⟩

/-- A completed generation whose stored content is the empty string (reachable
by editing a completed generation down to `""`). -/
def emptyDoc : Generation :=
  { issueKey := "KAN-8"
    email := "qa@example.com"
    mode := some Mode.manual
    status := some Status.completed
    result := some
      { markdown := some
          { content := some "", filename := some "KAN-8_testcases_1.md" } } }

/-- Counterexample to C1 as stated: the new content `"x"` differs from the
stored content `""` (and this is not the empty-vs-empty case), yet the edit
takes no snapshot and does not increment `currentVersion`, because the code
additionally requires the *stored* content to be truthy (non-empty). -/
theorem C1_counterexample :
    contentOfGen emptyDoc = "" ∧ ("x" ≠ contentOfGen emptyDoc) ∧
    updateContent (some emptyDoc) "qa@example.com" "x" 9 =
      Except.ok (setMarkdownContent emptyDoc "x", { content := "x", currentVersion := 1 }) ∧
    (setMarkdownContent emptyDoc "x").currentVersion = emptyDoc.currentVersion ∧
    (setMarkdownContent emptyDoc "x").currentVersion ≠ emptyDoc.currentVersion + 1 ∧
    (setMarkdownContent emptyDoc "x").version = [] := by
  refine ⟨rfl, by decide, ?_, rfl, by decide, rfl⟩
  rw [updateContent_eq_ok emptyDoc "qa@example.com" "x" 9 rfl rfl,
    editApplied_nochange emptyDoc "qa@example.com" "x" 9 (by decide)]
  rfl

/-! ### C2 — version monotonicity over edit sequences -/

theorem editApplied_email (gen : Generation) (r c : String) (now : Nat) :
    (editApplied gen r c now).email = gen.email := by
  unfold editApplied
  split
  · split <;> rfl
  · rfl

theorem editApplied_status (gen : Generation) (r c : String) (now : Nat) :
    (editApplied gen r c now).status = gen.status := by
  unfold editApplied
  split
  · split <;> rfl
  · rfl

/-- Difference chain for an edit sequence: each submitted content differs from
the one stored immediately before it and is non-empty. -/
def distinctChainB (prev : String) : List String → Bool
  | [] => true
  | c :: rest => (c != prev) && (c != "") && distinctChainB c rest

/-- Sequential application of `PUT /:id/content` requests. -/
def applyEdits (g : Generation) (requesterEmail : String) (now : Nat) :
    List String → Except HttpError Generation
  | [] => Except.ok g
  | c :: rest =>
    match updateContent (some g) requesterEmail c now with
    | Except.error e => Except.error e
    | Except.ok (g', _) => applyEdits g' requesterEmail now rest

/-- When the history holds exactly the version numbers `1..k-1`, no snapshot
with number `k` exists yet. -/
theorem any_version_eq_false_of_hist (l : List VersionEntry) (k : Nat) (hk : 1 ≤ k)
    (h : l.map VersionEntry.version = List.range' 1 (k - 1)) :
    l.any (fun v => v.version = k) = false := by
  rw [List.any_eq_false]
  intro v hv
  have hm : v.version ∈ List.range' 1 (k - 1) := by
    rw [← h]
    exact List.mem_map_of_mem _ hv
  rw [List.mem_range'_1] at hm
  simp only [decide_eq_true_eq]
  omega

/-- Induction engine for C2: starting from any owner-held completed generation
whose history holds exactly `1..currentVersion-1` and whose stored content is
non-empty, a chain of distinct non-empty edits advances `currentVersion` by
the number of edits and extends the history to `1..currentVersion-1+N`. -/
theorem applyEdits_general (edits : List String) (g : Generation) (r : String) (now : Nat)
    (hOwner : g.email = r) (hSt : g.status = some Status.completed)
    (hContent : contentOfGen g ≠ "")
    (hChain : distinctChainB (contentOfGen g) edits = true)
    (hVer : 1 ≤ g.currentVersion)
    (hHist : g.version.map VersionEntry.version = List.range' 1 (g.currentVersion - 1)) :
    ∃ g', applyEdits g r now edits = Except.ok g' ∧
      g'.currentVersion = g.currentVersion + edits.length ∧
      g'.version.map VersionEntry.version =
        List.range' 1 (g.currentVersion - 1 + edits.length) := by
  induction edits generalizing g with
  | nil =>
    refine ⟨g, rfl, by simp, by simpa using hHist⟩
  | cons c rest ih =>
    have hchain3 := hChain
    simp only [distinctChainB, Bool.and_eq_true, bne_iff_ne, ne_eq] at hchain3
    obtain ⟨⟨hcne, hcnempty⟩, hchainRest⟩ := hchain3
    have hdiff : contentOfGen g ≠ c := fun h => hcne h.symm
    have hcv := currentVersionOr1_of_pos g hVer
    have hex : g.version.any (fun v => v.version = currentVersionOr1 g) = false := by
      rw [hcv]
      exact any_version_eq_false_of_hist g.version g.currentVersion hVer hHist
    have happ := updateContent_eq_ok g r c now hOwner hSt
    have hedit := editApplied_change_fresh g r c now hContent hdiff hex
    have hg2cv : (setMarkdownContent (editApplied g r c now) c).currentVersion =
        g.currentVersion + 1 := by
      rw [setMarkdownContent_currentVersion, hedit, hcv]
    have hg2hist : (setMarkdownContent (editApplied g r c now) c).version.map
        VersionEntry.version = List.range' 1 (g.currentVersion - 1 + 1) := by
      rw [setMarkdownContent_version, hedit]
      simp only [List.map_append, List.map_cons, List.map_nil, hHist, hcv]
      have h1 : g.currentVersion = 1 + 1 * (g.currentVersion - 1) := by omega
      rw [List.range'_concat]
      congr 1
      simp only [List.cons.injEq, and_true]
      omega
    obtain ⟨g', hrun, hcv', hhist'⟩ := ih (setMarkdownContent (editApplied g r c now) c)
      (by rw [setMarkdownContent_email, editApplied_email]; exact hOwner)
      (by rw [setMarkdownContent_status, editApplied_status]; exact hSt)
      (by rw [contentOfGen_setMarkdownContent]; exact hcnempty)
      (by rw [contentOfGen_setMarkdownContent]; exact hchainRest)
      (by omega)
      (by rw [hg2hist]; congr 1; omega)
    refine ⟨g', ?_, ?_, ?_⟩
    · show (match updateContent (some g) r c now with
        | Except.error e => Except.error e
        | Except.ok (g', _) => applyEdits g' r now rest) = Except.ok g'
      rw [happ]
      exact hrun
    · rw [hcv', hg2cv]
      simp only [List.length_cons]
      omega
    · rw [hhist']
      congr 1
      rw [hg2cv]
      simp only [List.length_cons]
      omega

/-- `currentVersion` does not decrease across a successful edit. -/
theorem updateContent_currentVersion_mono (h h' : Generation) (resp : EditResponse)
    (r c : String) (t : Nat)
    (hstep : updateContent (some h) r c t = Except.ok (h', resp)) :
    h.currentVersion ≤ h'.currentVersion := by
  simp only [updateContent] at hstep
  split at hstep
  · cases hstep
  · split at hstep
    · cases hstep
    · injection hstep with hpair
      injection hpair with hg _
      subst hg
      rw [setMarkdownContent_currentVersion]
      unfold editApplied
      split
      · split
        · show h.currentVersion ≤ currentVersionOr1 h + 1
          unfold currentVersionOr1
          split <;> omega
        · show h.currentVersion ≤ currentVersionOr1 h + 1
          unfold currentVersionOr1
          split <;> omega
      · exact Nat.le_refl _

/-- A successful publish toggle never changes `currentVersion`. -/
theorem setPublished_currentVersion (h h' : Generation) (r : String) (b : Bool) (t : Nat)
    (hstep : setPublished (some h) r b t = Except.ok h') :
    h'.currentVersion = h.currentVersion := by
  simp only [setPublished] at hstep
  split at hstep
  · cases hstep
  · split at hstep
    · cases hstep
    · split at hstep
      · injection hstep with hg
        subst hg
        rfl
      · injection hstep with hg
        subst hg
        rfl

/-- C2 (amended): for any completed generation starting at `currentVersion = 1`
with empty `version[]` and non-empty stored content, after a sequence of N
edits in which each submitted content is non-empty and differs from the
content stored immediately before it, `currentVersion = 1 + N` and `version[]`
holds exactly N entries with strictly increasing version numbers `1..N`;
moreover `currentVersion` never decreases under a successful edit and is
unchanged by a publish toggle. -/
theorem C2_version_monotonicity (gen : Generation) (r : String) (now : Nat)
    (edits : List String)
    (hOwner : gen.email = r) (hSt : gen.status = some Status.completed)
    (hCV : gen.currentVersion = 1) (hHist : gen.version = [])
    (hContent : contentOfGen gen ≠ "")
    (hChain : distinctChainB (contentOfGen gen) edits = true) :
    (∃ g', applyEdits gen r now edits = Except.ok g' ∧
      g'.currentVersion = 1 + edits.length ∧
      g'.version.length = edits.length ∧
      g'.version.map VersionEntry.version = List.range' 1 edits.length) ∧
    (∀ (h h' : Generation) (resp : EditResponse) (r2 c2 : String) (t : Nat),
      updateContent (some h) r2 c2 t = Except.ok (h', resp) →
      h.currentVersion ≤ h'.currentVersion) ∧
    (∀ (h h' : Generation) (r2 : String) (b : Bool) (t : Nat),
      setPublished (some h) r2 b t = Except.ok h' →
      h'.currentVersion = h.currentVersion) := by
  refine ⟨?_, fun h h' resp r2 c2 t => updateContent_currentVersion_mono h h' resp r2 c2 t,
    fun h h' r2 b t => setPublished_currentVersion h h' r2 b t⟩
  obtain ⟨g', hrun, hcv, hhist⟩ :=
    applyEdits_general edits gen r now hOwner hSt hContent hChain
      (by omega) (by rw [hHist, hCV]; rfl)
  refine ⟨g', hrun, by omega, ?_, ?_⟩
  · have := congrArg List.length hhist
    simpa [hCV] using this
  · rw [hhist, hCV]
    congr 1
    omega

/-- Witness for C2: two distinct edits of `sampleDoc`. -/
theorem C2_witness :
    sampleDoc.email = "qa@example.com" ∧ sampleDoc.status = some Status.completed ∧
    sampleDoc.currentVersion = 1 ∧ sampleDoc.version = [] ∧
    contentOfGen sampleDoc ≠ "" ∧
    distinctChainB (contentOfGen sampleDoc) ["# doc v2", "# doc v3"] = true ∧
    ((∃ g', applyEdits sampleDoc "qa@example.com" 9 ["# doc v2", "# doc v3"] = Except.ok g' ∧
        g'.currentVersion = 1 + (["# doc v2", "# doc v3"] : List String).length ∧
        g'.version.length = (["# doc v2", "# doc v3"] : List String).length ∧
        g'.version.map VersionEntry.version =
          List.range' 1 (["# doc v2", "# doc v3"] : List String).length) ∧
      (∀ (h h' : Generation) (resp : EditResponse) (r2 c2 : String) (t : Nat),
        updateContent (some h) r2 c2 t = Except.ok (h', resp) →
        h.currentVersion ≤ h'.currentVersion) ∧
      (∀ (h h' : Generation) (r2 : String) (b : Bool) (t : Nat),
        setPublished (some h) r2 b t = Except.ok h' →
        h'.currentVersion = h.currentVersion)) :=
  ⟨rfl, rfl, rfl, rfl, by decide, by decide,
    C2_version_monotonicity sampleDoc "qa@example.com" 9 ["# doc v2", "# doc v3"]
      rfl rfl rfl rfl (by decide) (by decide)⟩

/-- A completed generation with stored content `"a"`. -/
def abDoc : Generation :=
  { issueKey := "KAN-2"
    email := "qa@example.com"
    mode := some Mode.manual
    status := some Status.completed
    result := some
      { markdown := some
          { content := some "a", filename := some "KAN-2_testcases_1.md" } } }

/-- The state of `abDoc` after editing its content to `""`. -/
def abDoc1 : Generation := setMarkdownContent (editApplied abDoc "qa@example.com" "" 9) ""

/-- Counterexample to C2 as stated: two successive edits, each submitted
content differing from the content stored immediately before it
(`"a" → "" → "b"`), after which `currentVersion = 2`, not `1 + 2`: the second
edit is not counted because the stored content is empty at that point. -/
theorem C2_counterexample :
    contentOfGen abDoc = "a" ∧ ("" : String) ≠ "a" ∧ ("b" : String) ≠ "" ∧
    abDoc.currentVersion = 1 ∧ abDoc.version = [] ∧
    (∃ resp1, updateContent (some abDoc) "qa@example.com" "" 9 = Except.ok (abDoc1, resp1)) ∧
    contentOfGen abDoc1 = "" ∧ abDoc1.currentVersion = 2 ∧
    (∃ g2 resp2, updateContent (some abDoc1) "qa@example.com" "b" 9 = Except.ok (g2, resp2) ∧
      g2.currentVersion = 2 ∧ g2.currentVersion ≠ 1 + 2) := by
  refine ⟨rfl, by decide, by decide, rfl, rfl,
    ⟨_, updateContent_eq_ok abDoc "qa@example.com" "" 9 rfl rfl⟩,
    contentOfGen_setMarkdownContent _ _, ?_, ?_⟩
  · show (setMarkdownContent (editApplied abDoc "qa@example.com" "" 9) "").currentVersion = 2
    rw [setMarkdownContent_currentVersion,
      editApplied_change_fresh abDoc "qa@example.com" "" 9 (by decide) (by decide) rfl]
    rfl
  · have hOwner1 : abDoc1.email = "qa@example.com" := rfl
    have hSt1 : abDoc1.status = some Status.completed := rfl
    have hno : ¬(contentOfGen abDoc1 ≠ "" ∧ contentOfGen abDoc1 ≠ "b") := by
      intro hc
      exact hc.1 (contentOfGen_setMarkdownContent _ _)
    refine ⟨_, _, updateContent_eq_ok abDoc1 "qa@example.com" "b" 9 hOwner1 hSt1, ?_, ?_⟩
    · rw [setMarkdownContent_currentVersion, editApplied_nochange abDoc1 "qa@example.com" "b" 9 hno]
      show (setMarkdownContent (editApplied abDoc "qa@example.com" "" 9) "").currentVersion = 2
      rw [setMarkdownContent_currentVersion,
        editApplied_change_fresh abDoc "qa@example.com" "" 9 (by decide) (by decide) rfl]
      rfl
    · rw [setMarkdownContent_currentVersion, editApplied_nochange abDoc1 "qa@example.com" "b" 9 hno]
      show (setMarkdownContent (editApplied abDoc "qa@example.com" "" 9) "").currentVersion ≠ 1 + 2
      rw [setMarkdownContent_currentVersion,
        editApplied_change_fresh abDoc "qa@example.com" "" 9 (by decide) (by decide) rfl]
      decide

/-! ### C3 — JIRA fetch failure during create -/

/-- C3 (amended): when the JIRA fetch fails during `POST /testcases`, the
persisted generation is updated with `status = failed`, `error` set to the
collaborator's message (with a default when it is empty or missing) and
`completedAt` stamped — but the HTTP status returned by this route is always
404 regardless of the message content; the message-content classification
(`authentication`/`forbidden` → 401, `not found` → 404, else 500) is applied
by the preflight route only. -/
theorem C3_jira_failure_handling (issueKey email : String)
    (fetchIssue : Nat → IssueResult) (modelOracle : Nat → Except String ChatResponse)
    (startedAt now : Nat) (genId : String) (elapsed : ℚ)
    (hKey : issueKey ≠ "") (hFail : (fetchIssue 0).success = false) :
    testcasesHandler issueKey email fetchIssue modelOracle startedAt now genId elapsed =
      TestcasesOutcome.jiraFailed
        (markJiraFailed (newGeneration issueKey email startedAt) (fetchIssue 0).error now)
        (fetchIssue 0).error ∧
    (markJiraFailed (newGeneration issueKey email startedAt) (fetchIssue 0).error now).status =
      some Status.failed ∧
    (markJiraFailed (newGeneration issueKey email startedAt) (fetchIssue 0).error now).error =
      some (jsOrString (fetchIssue 0).error "Failed to fetch JIRA issue") ∧
    (markJiraFailed (newGeneration issueKey email startedAt) (fetchIssue 0).error now).completedAt =
      some now ∧
    responseStatus (TestcasesOutcome.jiraFailed
      (markJiraFailed (newGeneration issueKey email startedAt) (fetchIssue 0).error now)
      (fetchIssue 0).error) = 404 ∧
    (∀ e : String, preflightHandler issueKey { success := false, error := some e } =
      PreflightOutcome.fetchError (classifyJiraError e)
        (jsOrString (some e) "Issue not found in JIRA")) := by
  refine ⟨?_, rfl, rfl, rfl, rfl, ?_⟩
  · simp [testcasesHandler, hKey, hFail]
  · intro e
    simp [preflightHandler, hKey]

/-- Witness for C3 at a concrete failing fetch. -/
theorem C3_witness :
    ("KAN-9" : String) ≠ "" ∧
    (((fun _ => { success := false, error := some "boom" } :
        Nat → IssueResult)) 0).success = false ∧
    (testcasesHandler "KAN-9" "qa@example.com"
        (fun _ => { success := false, error := some "boom" })
        (fun _ => Except.error "unused") 0 1 "gid1" 0 =
      TestcasesOutcome.jiraFailed
        (markJiraFailed (newGeneration "KAN-9" "qa@example.com" 0)
          (((fun _ => { success := false, error := some "boom" } :
              Nat → IssueResult)) 0).error 1)
        (((fun _ => { success := false, error := some "boom" } :
            Nat → IssueResult)) 0).error ∧
      (markJiraFailed (newGeneration "KAN-9" "qa@example.com" 0)
        (((fun _ => { success := false, error := some "boom" } :
            Nat → IssueResult)) 0).error 1).status = some Status.failed ∧
      (markJiraFailed (newGeneration "KAN-9" "qa@example.com" 0)
        (((fun _ => { success := false, error := some "boom" } :
            Nat → IssueResult)) 0).error 1).error =
        some (jsOrString (((fun _ => { success := false, error := some "boom" } :
            Nat → IssueResult)) 0).error "Failed to fetch JIRA issue") ∧
      (markJiraFailed (newGeneration "KAN-9" "qa@example.com" 0)
        (((fun _ => { success := false, error := some "boom" } :
            Nat → IssueResult)) 0).error 1).completedAt = some 1 ∧
      responseStatus (TestcasesOutcome.jiraFailed
        (markJiraFailed (newGeneration "KAN-9" "qa@example.com" 0)
          (((fun _ => { success := false, error := some "boom" } :
              Nat → IssueResult)) 0).error 1)
        (((fun _ => { success := false, error := some "boom" } :
            Nat → IssueResult)) 0).error) = 404 ∧
      (∀ e : String, preflightHandler "KAN-9" { success := false, error := some e } =
        PreflightOutcome.fetchError (classifyJiraError e)
          (jsOrString (some e) "Issue not found in JIRA"))) :=
  ⟨by decide, rfl,
    C3_jira_failure_handling "KAN-9" "qa@example.com"
      (fun _ => { success := false, error := some "boom" })
      (fun _ => Except.error "unused") 0 1 "gid1" 0 (by decide) rfl⟩

/-- Counterexample to C3 as stated: an authentication-flavoured fetch error;
the claim demands a 401-class response from the create route, the route
answers 404. -/
theorem C3_counterexample :
    responseStatus (testcasesHandler "KAN-9" "qa@example.com"
      (fun _ => { success := false, error := some "jira authentication failed" })
      (fun _ => Except.error "unused") 0 1 "gid1" 0) = 404 ∧
    classifyJiraError "jira authentication failed" = 401 ∧ (404 : Nat) ≠ 401 := by
  refine ⟨by decide, by decide, by decide⟩

/-! ### C4 — view/download access control -/

/-- C4 (amended): the view and download routes share the pure predicate
`canView` (owner, or published-and-completed). Whenever it is false —
including when the generation does not exist, and in particular for any
non-owner requesting a non-published generation — both routes answer
`NotFound`. Whenever it is true, view returns the content; download returns
the file only when the generation is also completed, and answers a
`Not completed` 400 otherwise. -/
theorem C4_access_control (gen? : Option Generation) (r : String) :
    (gen? = none → viewHandler gen? r = ViewOutcome.notFound ∧
      downloadHandler gen? r = DownloadOutcome.notFound) ∧
    (∀ gen, gen? = some gen →
      (canView gen r = false →
        viewHandler gen? r = ViewOutcome.notFound ∧
        downloadHandler gen? r = DownloadOutcome.notFound) ∧
      (canView gen r = true →
        viewHandler gen? r = ViewOutcome.ok (contentOfGen gen) (filenameOfGen gen)
          (currentVersionOr1 gen) gen.version) ∧
      (canView gen r = true → gen.status = some Status.completed →
        downloadHandler gen? r = DownloadOutcome.file (filenameOfGen gen) (contentOfGen gen)) ∧
      (canView gen r = true → gen.status ≠ some Status.completed →
        downloadHandler gen? r = DownloadOutcome.notCompleted) ∧
      (gen.email ≠ r → gen.published = false →
        viewHandler gen? r = ViewOutcome.notFound ∧
        downloadHandler gen? r = DownloadOutcome.notFound)) := by
  constructor
  · intro h
    subst h
    exact ⟨rfl, rfl⟩
  intro gen h
  subst h
  have hcond : ∀ b : Bool, canView gen r = b →
      (!(gen.email == r) && !(gen.published && decide (gen.status = some Status.completed))) = !b := by
    intro b hb
    rw [← Bool.not_or]
    show (!(canView gen r)) = !b
    rw [hb]
  refine ⟨?_, ?_, ?_, ?_, ?_⟩
  · intro hcv
    have h1 := hcond false hcv
    rw [Bool.not_false] at h1
    constructor
    · show (if (!(gen.email == r) &&
          !(gen.published && decide (gen.status = some Status.completed))) = true then
          ViewOutcome.notFound
        else ViewOutcome.ok (contentOfGen gen) (filenameOfGen gen)
          (currentVersionOr1 gen) gen.version) = ViewOutcome.notFound
      rw [if_pos h1]
    · show (if (!(gen.email == r) &&
          !(gen.published && decide (gen.status = some Status.completed))) = true then
          DownloadOutcome.notFound
        else if gen.status ≠ some Status.completed then DownloadOutcome.notCompleted
        else DownloadOutcome.file (filenameOfGen gen) (contentOfGen gen)) =
        DownloadOutcome.notFound
      rw [if_pos h1]
  · intro hcv
    have h1 := hcond true hcv
    rw [Bool.not_true] at h1
    show (if (!(gen.email == r) &&
        !(gen.published && decide (gen.status = some Status.completed))) = true then
        ViewOutcome.notFound
      else ViewOutcome.ok (contentOfGen gen) (filenameOfGen gen)
        (currentVersionOr1 gen) gen.version) =
      ViewOutcome.ok (contentOfGen gen) (filenameOfGen gen) (currentVersionOr1 gen) gen.version
    rw [if_neg (fun hc => by rw [h1] at hc; cases hc)]
  · intro hcv hst
    have h1 := hcond true hcv
    rw [Bool.not_true] at h1
    show (if (!(gen.email == r) &&
        !(gen.published && decide (gen.status = some Status.completed))) = true then
        DownloadOutcome.notFound
      else if gen.status ≠ some Status.completed then DownloadOutcome.notCompleted
      else DownloadOutcome.file (filenameOfGen gen) (contentOfGen gen)) =
      DownloadOutcome.file (filenameOfGen gen) (contentOfGen gen)
    rw [if_neg (fun hc => by rw [h1] at hc; cases hc), if_neg (by simp [hst])]
  · intro hcv hst
    have h1 := hcond true hcv
    rw [Bool.not_true] at h1
    show (if (!(gen.email == r) &&
        !(gen.published && decide (gen.status = some Status.completed))) = true then
        DownloadOutcome.notFound
      else if gen.status ≠ some Status.completed then DownloadOutcome.notCompleted
      else DownloadOutcome.file (filenameOfGen gen) (contentOfGen gen)) =
      DownloadOutcome.notCompleted
    rw [if_neg (fun hc => by rw [h1] at hc; cases hc), if_pos hst]
  · intro hown hpub
    have hcv : canView gen r = false := by
      simp [canView, hown, hpub]
    have h1 := hcond false hcv
    rw [Bool.not_false] at h1
    constructor
    · show (if (!(gen.email == r) &&
          !(gen.published && decide (gen.status = some Status.completed))) = true then
          ViewOutcome.notFound
        else ViewOutcome.ok (contentOfGen gen) (filenameOfGen gen)
          (currentVersionOr1 gen) gen.version) = ViewOutcome.notFound
      rw [if_pos h1]
    · show (if (!(gen.email == r) &&
          !(gen.published && decide (gen.status = some Status.completed))) = true then
          DownloadOutcome.notFound
        else if gen.status ≠ some Status.completed then DownloadOutcome.notCompleted
        else DownloadOutcome.file (filenameOfGen gen) (contentOfGen gen)) =
        DownloadOutcome.notFound
      rw [if_pos h1]

/-- Witness for C4: a non-owner requesting the non-published `sampleDoc`
receives `NotFound` from both routes. -/
theorem C4_witness :
    canView sampleDoc "other@example.com" = false ∧
    (viewHandler (some sampleDoc) "other@example.com" = ViewOutcome.notFound ∧
      downloadHandler (some sampleDoc) "other@example.com" = DownloadOutcome.notFound) :=
  ⟨by decide,
    ((C4_access_control (some sampleDoc) "other@example.com").2 sampleDoc rfl).1 (by decide)⟩

/-- A failed generation owned by the requester. -/
def failedDoc : Generation :=
  { issueKey := "KAN-4"
    email := "qa@example.com"
    mode := some Mode.manual
    status := some Status.failed
    error := some "OpenAI generation failed: boom"
    completedAt := some 2 }

/-- Counterexample to C4 as stated: the owner of a failed (hence
non-completed) generation satisfies `canView`, yet the download route answers
a 400 `Not completed` instead of delivering the content. -/
theorem C4_counterexample :
    canView failedDoc "qa@example.com" = true ∧
    downloadHandler (some failedDoc) "qa@example.com" = DownloadOutcome.notCompleted ∧
    downloadHandler (some failedDoc) "qa@example.com" ≠ DownloadOutcome.notFound ∧
    downloadHandler (some failedDoc) "qa@example.com" ≠
      DownloadOutcome.file (filenameOfGen failedDoc) (contentOfGen failedDoc) := by
  refine ⟨by decide, by decide, by decide, by decide⟩

/-! ### C5 — publish/unpublish field coupling -/

/-- Successful shape of a publish toggle by the owner of a completed
generation. -/
theorem setPublished_eq_ok (gen : Generation) (r : String) (desired : Bool) (now : Nat)
    (hOwner : gen.email = r) (hSt : gen.status = some Status.completed) :
    setPublished (some gen) r desired now = Except.ok
      (if desired then
        { gen with published := true, publishedAt := some now, publishedBy := some r }
       else
        { gen with published := false, publishedAt := none, publishedBy := none }) := by
  simp only [setPublished]
  rw [if_neg (by simp [hOwner]), if_neg (by simp [hSt])]
  by_cases hd : desired
  · rw [if_pos hd, if_pos hd]
  · rw [if_neg hd, if_neg hd]

/-- Inversion of a successful publish toggle: the caller was the owner, the
generation was completed, and the result is the stamped/cleared record. -/
theorem setPublished_ok_inv (gen g' : Generation) (r : String) (desired : Bool) (now : Nat)
    (h : setPublished (some gen) r desired now = Except.ok g') :
    gen.email = r ∧ gen.status = some Status.completed ∧
    g' = (if desired then
        { gen with published := true, publishedAt := some now, publishedBy := some r }
      else
        { gen with published := false, publishedAt := none, publishedBy := none }) := by
  simp only [setPublished] at h
  split at h
  · cases h
  next hne =>
    split at h
    · cases h
    next hst =>
      refine ⟨not_ne_iff.mp hne, not_ne_iff.mp hst, ?_⟩
      split at h
      next hd =>
        injection h with hg
        rw [if_pos hd]
        exact hg.symm
      next hd =>
        injection h with hg
        rw [if_neg hd]
        exact hg.symm

/-- C5: after every successful `setPublished` call, `published = true` holds
iff both `publishedAt` and `publishedBy` are set (stamped to the request time
and the requester), and `published = false` holds iff both are cleared;
repeating the call is not an error and simply re-stamps or re-clears. -/
theorem C5_publish_invariant (gen g' : Generation) (r : String) (desired : Bool) (now : Nat)
    (h : setPublished (some gen) r desired now = Except.ok g') :
    (g'.published = true ↔ g'.publishedAt.isSome ∧ g'.publishedBy.isSome) ∧
    (g'.published = false ↔ g'.publishedAt = none ∧ g'.publishedBy = none) ∧
    (desired = true →
      g'.published = true ∧ g'.publishedAt = some now ∧ g'.publishedBy = some r) ∧
    (desired = false →
      g'.published = false ∧ g'.publishedAt = none ∧ g'.publishedBy = none) ∧
    (∀ now2, setPublished (some g') r desired now2 = Except.ok
      (if desired then
        { g' with published := true, publishedAt := some now2, publishedBy := some r }
       else
        { g' with published := false, publishedAt := none, publishedBy := none })) := by
  obtain ⟨hOwner, hSt, hg⟩ := setPublished_ok_inv gen g' r desired now h
  by_cases hd : desired = true
  · rw [if_pos hd] at hg
    subst hg
    refine ⟨by simp, by simp, fun _ => ⟨rfl, rfl, rfl⟩, ?_, ?_⟩
    · intro hc
      rw [hd] at hc
      cases hc
    · intro now2
      rw [hd]
      exact setPublished_eq_ok _ r true now2 hOwner hSt
  · have hd' : desired = false := by
      cases desired
      · rfl
      · exact absurd rfl hd
    rw [if_neg hd] at hg
    subst hg
    refine ⟨by simp, by simp, ?_, fun _ => ⟨rfl, rfl, rfl⟩, ?_⟩
    · intro hc
      rw [hd'] at hc
      cases hc
    · intro now2
      rw [hd']
      exact setPublished_eq_ok _ r false now2 hOwner hSt

/-- `sampleDoc` after publishing at time 5. -/
def sampleDocPub : Generation :=
  { sampleDoc with
    published := true
    publishedAt := some 5
    publishedBy := some "qa@example.com" }

/-- Witness for C5: publishing `sampleDoc` at time 5. -/
theorem C5_witness :
    setPublished (some sampleDoc) "qa@example.com" true 5 = Except.ok sampleDocPub ∧
    ((sampleDocPub.published = true ↔
        sampleDocPub.publishedAt.isSome ∧ sampleDocPub.publishedBy.isSome) ∧
      (sampleDocPub.published = false ↔
        sampleDocPub.publishedAt = none ∧ sampleDocPub.publishedBy = none) ∧
      ((true : Bool) = true → sampleDocPub.published = true ∧
        sampleDocPub.publishedAt = some 5 ∧
        sampleDocPub.publishedBy = some "qa@example.com") ∧
      ((true : Bool) = false → sampleDocPub.published = false ∧
        sampleDocPub.publishedAt = none ∧ sampleDocPub.publishedBy = none) ∧
      (∀ now2, setPublished (some sampleDocPub) "qa@example.com" true now2 = Except.ok
        (if (true : Bool) then
          { sampleDocPub with
            published := true
            publishedAt := some now2
            publishedBy := some "qa@example.com" }
         else
          { sampleDocPub with
            published := false
            publishedAt := none
            publishedBy := none }))) :=
  ⟨setPublished_eq_ok sampleDoc "qa@example.com" true 5 rfl rfl,
    C5_publish_invariant sampleDoc sampleDocPub "qa@example.com" true 5
      (setPublished_eq_ok sampleDoc "qa@example.com" true 5 rfl rfl)⟩

/-! ### C6 — model-invocation retry policy -/

/-- When the first attempt succeeds, no backoff wait is performed. -/
theorem generateTestCaseRetry_first_ok (oracle : Nat → Except String ChatResponse)
    (out : GenOutput) (h : attemptOutcome (oracle 0) = Except.ok out) :
    generateTestCaseRetry oracle = (Except.ok out, []) := by
  show retryAux oracle 0 (2 + 1) = (Except.ok out, [])
  simp only [retryAux, h]

/-- When every attempt in the window fails, the loop performs one backoff wait
of `2^(attempt index + 1) * 1000` ms per retry and propagates the error of the
final attempt. -/
theorem retryAux_all_fail (oracle : Nat → Except String ChatResponse) :
    ∀ (rem rc : Nat) (es : Nat → String),
    (∀ i, rc ≤ i → i ≤ rc + rem → attemptOutcome (oracle i) = Except.error (es i)) →
    retryAux oracle rc rem =
      (Except.error (es (rc + rem)),
        (List.range' (rc + 1) rem).map (fun a => 2 ^ a * 1000)) := by
  intro rem
  induction rem with
  | zero =>
    intro rc es h
    simp only [retryAux]
    rw [h rc le_rfl (by omega)]
    simp
  | succ n ih =>
    intro rc es h
    simp only [retryAux]
    rw [h rc le_rfl (by omega), ih (rc + 1) es (fun i h1 h2 => h i (by omega) (by omega))]
    simp only [List.range'_succ, List.map_cons]
    have harith : rc + 1 + n = rc + (n + 1) := by omega
    rw [harith]

/-- The retry loop consults the oracle only at attempt indices
`retryCount .. retryCount + remaining`. -/
theorem retryAux_congr (o1 o2 : Nat → Except String ChatResponse) :
    ∀ (rem rc : Nat), (∀ i, rc ≤ i → i ≤ rc + rem → o1 i = o2 i) →
    retryAux o1 rc rem = retryAux o2 rc rem := by
  intro rem
  induction rem with
  | zero =>
    intro rc h
    simp only [retryAux, h rc le_rfl (by omega)]
  | succ n ih =>
    intro rc h
    simp only [retryAux, h rc le_rfl (by omega)]
    cases hh : attemptOutcome (o2 rc) with
    | ok out => rfl
    | error e =>
      rw [ih (rc + 1) (fun i h1 h2 => h i (by omega) (by omega))]

/-- C6 (amended): the model call is retried up to 3 additional times (4
attempts total: the loop's outcome depends only on attempts 0..3), waiting
`2^attempt` seconds (2000, 4000, 8000 ms) between attempts; the failure of
the final attempt propagates, and the route then marks the generation failed
with `error = "OpenAI generation failed: " ++ message` (the underlying message
prefixed) and answers 500; the JIRA fetch is consulted only once and is never
retried. -/
theorem C6_retry_policy :
    (∀ (oracle : Nat → Except String ChatResponse) (e0 e1 e2 e3 : String),
      attemptOutcome (oracle 0) = Except.error e0 →
      attemptOutcome (oracle 1) = Except.error e1 →
      attemptOutcome (oracle 2) = Except.error e2 →
      attemptOutcome (oracle 3) = Except.error e3 →
      generateTestCaseRetry oracle =
        (Except.error e3, [2 ^ 1 * 1000, 2 ^ 2 * 1000, 2 ^ 3 * 1000])) ∧
    (∀ o1 o2 : Nat → Except String ChatResponse,
      (∀ i, i ≤ maxRetries → o1 i = o2 i) →
      generateTestCaseRetry o1 = generateTestCaseRetry o2) ∧
    (∀ (issueKey email : String) (fetchIssue : Nat → IssueResult)
      (oracle : Nat → Except String ChatResponse) (startedAt now : Nat)
      (genId : String) (elapsed : ℚ) (e : String) (ws : List Nat),
      issueKey ≠ "" → (fetchIssue 0).success = true →
      generateTestCaseRetry oracle = (Except.error e, ws) →
      testcasesHandler issueKey email fetchIssue oracle startedAt now genId elapsed =
        TestcasesOutcome.openaiFailed
          (markOpenAIFailed (newGeneration issueKey email startedAt) e now) e ∧
      (markOpenAIFailed (newGeneration issueKey email startedAt) e now).status =
        some Status.failed ∧
      (markOpenAIFailed (newGeneration issueKey email startedAt) e now).error =
        some ("OpenAI generation failed: " ++ e) ∧
      responseStatus (TestcasesOutcome.openaiFailed
        (markOpenAIFailed (newGeneration issueKey email startedAt) e now) e) = 500) ∧
    (∀ (issueKey email : String) (f1 f2 : Nat → IssueResult)
      (oracle : Nat → Except String ChatResponse) (startedAt now : Nat)
      (genId : String) (elapsed : ℚ),
      f1 0 = f2 0 →
      testcasesHandler issueKey email f1 oracle startedAt now genId elapsed =
        testcasesHandler issueKey email f2 oracle startedAt now genId elapsed) := by
  refine ⟨?_, ?_, ?_, ?_⟩
  · intro oracle e0 e1 e2 e3 h0 h1 h2 h3
    have hall := retryAux_all_fail oracle 3 0
      (fun i => if i = 0 then e0 else if i = 1 then e1 else if i = 2 then e2 else e3) ?_
    · show retryAux oracle 0 3 = _
      rw [hall]
      refine congrArg₂ Prod.mk (by norm_num) (by decide)
    · intro i _ hle
      interval_cases i
      · simpa using h0
      · simpa using h1
      · simpa using h2
      · simpa using h3
  · intro o1 o2 h
    exact retryAux_congr o1 o2 maxRetries 0 (fun i h1 h2 => h i (by omega))
  · intro issueKey email fetchIssue oracle startedAt now genId elapsed e ws hKey hSucc hRetry
    refine ⟨?_, rfl, rfl, rfl⟩
    simp [testcasesHandler, hKey, hSucc, hRetry]
  · intro issueKey email f1 f2 oracle startedAt now genId elapsed hf
    simp only [testcasesHandler, hf]

/-- Witness for C6: a model that always fails with `"boom"` exhausts the four
attempts with 2s/4s/8s waits, and the route records the prefixed error with a
500 response. -/
theorem C6_witness :
    generateTestCaseRetry (fun _ => Except.error "boom") =
      (Except.error "boom", [2 ^ 1 * 1000, 2 ^ 2 * 1000, 2 ^ 3 * 1000]) ∧
    (testcasesHandler "KAN-3" "qa@example.com"
        (fun _ => { success := true, fields := some {} })
        (fun _ => Except.error "boom") 0 1 "gid2" 0 =
      TestcasesOutcome.openaiFailed
        (markOpenAIFailed (newGeneration "KAN-3" "qa@example.com" 0) "boom" 1) "boom" ∧
      (markOpenAIFailed (newGeneration "KAN-3" "qa@example.com" 0) "boom" 1).status =
        some Status.failed ∧
      (markOpenAIFailed (newGeneration "KAN-3" "qa@example.com" 0) "boom" 1).error =
        some ("OpenAI generation failed: " ++ "boom") ∧
      responseStatus (TestcasesOutcome.openaiFailed
        (markOpenAIFailed (newGeneration "KAN-3" "qa@example.com" 0) "boom" 1) "boom") =
        500) := by
  have hall := C6_retry_policy.1 (fun _ => Except.error "boom") "boom" "boom" "boom" "boom"
    rfl rfl rfl rfl
  exact ⟨hall,
    C6_retry_policy.2.2.1 "KAN-3" "qa@example.com"
      (fun _ => { success := true, fields := some {} })
      (fun _ => Except.error "boom") 0 1 "gid2" 0 "boom" _ (by decide) rfl hall⟩

/-- Counterexample to C6 as stated: the error recorded on the generation is
the prefixed string `"OpenAI generation failed: boom"`, not the underlying
message `"boom"` itself. -/
theorem C6_counterexample :
    (markOpenAIFailed (newGeneration "KAN-3" "qa@example.com" 0) "boom" 1).error =
      some "OpenAI generation failed: boom" ∧
    (markOpenAIFailed (newGeneration "KAN-3" "qa@example.com" 0) "boom" 1).error ≠
      some "boom" ∧
    testcasesHandler "KAN-3" "qa@example.com"
      (fun _ => { success := true, fields := some {} })
      (fun _ => Except.error "boom") 0 1 "gid2" 0 =
      TestcasesOutcome.openaiFailed
        (markOpenAIFailed (newGeneration "KAN-3" "qa@example.com" 0) "boom" 1) "boom" := by
  refine ⟨rfl, by decide, by decide⟩

/-! ### C7 — failed ⟺ non-empty error and no markdown -/

theorem jsOrString_ne_empty (a : Option String) (b : String) (hb : b ≠ "") :
    jsOrString a b ≠ "" := by
  cases a with
  | none => simpa [jsOrString] using hb
  | some s =>
    simp only [jsOrString]
    split
    · exact hb
    · assumption

theorem prefixed_error_ne_empty (msg : String) :
    ("OpenAI generation failed: " ++ msg) ≠ "" := by
  intro h
  have hlen := congrArg String.length h
  have h26 : ("OpenAI generation failed: " : String).length = 26 := rfl
  have h0 : ("" : String).length = 0 := rfl
  rw [String.length_append, h26, h0] at hlen
  omega

theorem setMarkdownContent_markdown_isSome (g : Generation) (c : String) :
    ((setMarkdownContent g c).result.bind GenResult.markdown).isSome = true := rfl

/-- Inversion of a successful edit: the caller was the owner, the generation
was completed, and the new state stores the new content. -/
theorem updateContent_ok_inv (gen g' : Generation) (resp : EditResponse)
    (r c : String) (now : Nat)
    (h : updateContent (some gen) r c now = Except.ok (g', resp)) :
    gen.email = r ∧ gen.status = some Status.completed ∧
    g' = setMarkdownContent (editApplied gen r c now) c := by
  simp only [updateContent] at h
  split at h
  next hne => cases h
  next hne =>
    split at h
    next hst => cases h
    next hst =>
      injection h with hpair
      injection hpair with hg _
      exact ⟨not_ne_iff.mp hne, not_ne_iff.mp hst, hg.symm⟩

/-- Invariance under operations that preserve status, error and result. -/
theorem inv_of_same_fields (g A : Generation) (hst : A.status = g.status)
    (herr : A.error = g.error) (hres : A.result = g.result)
    (ih : failedIffErrorAndNoMarkdown g) : failedIffErrorAndNoMarkdown A := by
  unfold failedIffErrorAndNoMarkdown at *
  rw [hst, herr, hres]
  exact ih

/-- C7: every generation reachable through the persisting routes satisfies
`status = failed` ⟺ (`error` is a non-empty string ∧ `result.markdown` is
absent); in particular a completed generation always carries
`result.markdown` and the edit/publish operations cannot break the
equivalence. -/
theorem C7_failed_iff_error (g : Generation) (h : Reachable g) :
    failedIffErrorAndNoMarkdown g := by
  induction h with
  | inflight k e s =>
    constructor
    · intro hc
      exact Option.noConfusion hc
    · rintro ⟨⟨e', he', _⟩, _⟩
      exact Option.noConfusion he'
  | jiraFailStep k e s err now =>
    constructor
    · intro _
      exact ⟨⟨jsOrString err "Failed to fetch JIRA issue", rfl,
        jsOrString_ne_empty err _ (by decide)⟩, rfl⟩
    · intro _
      rfl
  | openaiFailStep k e s now msg =>
    constructor
    · intro _
      exact ⟨⟨"OpenAI generation failed: " ++ msg, rfl, prefixed_error_ne_empty msg⟩, rfl⟩
    · intro _
      rfl
  | completeStep k e s now genId md cost tu t =>
    constructor
    · intro hc
      exact Status.noConfusion (Option.some.inj hc)
    · rintro ⟨_, hmark⟩
      exact Option.noConfusion hmark
  | editStep g g' resp r c now hre hstep ih =>
    obtain ⟨_, hSt, hg⟩ := updateContent_ok_inv g g' resp r c now hstep
    subst hg
    constructor
    · intro hc
      rw [setMarkdownContent_status, editApplied_status, hSt] at hc
      exact Status.noConfusion (Option.some.inj hc)
    · rintro ⟨_, hmark⟩
      have hs := setMarkdownContent_markdown_isSome (editApplied g r c now) c
      rw [hmark] at hs
      simp at hs
  | publishStep g g' r b now hre hstep ih =>
    obtain ⟨hOwner, hSt, hg⟩ := setPublished_ok_inv g g' r b now hstep
    cases b with
    | false =>
      rw [if_neg (by decide)] at hg
      subst hg
      exact inv_of_same_fields g _ rfl rfl rfl ih
    | true =>
      rw [if_pos rfl] at hg
      subst hg
      exact inv_of_same_fields g _ rfl rfl rfl ih

/-- Witness for C7 at a concrete reachable failed generation. -/
theorem C7_witness :
    Reachable (markJiraFailed (newGeneration "KAN-1" "qa@example.com" 0) (some "boom") 1) ∧
    failedIffErrorAndNoMarkdown
      (markJiraFailed (newGeneration "KAN-1" "qa@example.com" 0) (some "boom") 1) :=
  ⟨Reachable.jiraFailStep "KAN-1" "qa@example.com" 0 (some "boom") 1,
    C7_failed_iff_error _ (Reachable.jiraFailStep "KAN-1" "qa@example.com" 0 (some "boom") 1)⟩

/-! ### C8 — token and cost model -/

/-- Rational ceiling of a natural division as natural arithmetic. -/
theorem ceil_div_nat (a b : Nat) (hb : 1 ≤ b) :
    ⌈(a : ℚ) / ((b : ℕ) : ℚ)⌉ = ((a + b - 1) / b : ℕ) := by
  have hmod := Nat.div_add_mod (a + b - 1) b
  have hlt : (a + b - 1) % b < b := Nat.mod_lt _ (by omega)
  have hub : a ≤ b * ((a + b - 1) / b) := by
    generalize hm : b * ((a + b - 1) / b) = m at hmod ⊢
    omega
  have hlb : b * ((a + b - 1) / b) < a + b := by
    generalize hm : b * ((a + b - 1) / b) = m at hmod ⊢
    omega
  generalize hq : (a + b - 1) / b = q at hub hlb ⊢
  have hbQ : (0 : ℚ) < ((b : ℕ) : ℚ) := by exact_mod_cast hb
  have hcast : (((q : ℕ) : ℤ) : ℚ) = ((q : ℕ) : ℚ) := by push_cast; ring
  rw [Int.ceil_eq_iff]
  constructor
  · rw [lt_div_iff₀ hbQ, hcast]
    have hlbQ : ((b : ℕ) : ℚ) * ((q : ℕ) : ℚ) < ((a : ℕ) : ℚ) + ((b : ℕ) : ℚ) := by
      exact_mod_cast hlb
    nlinarith [hlbQ]
  · rw [div_le_iff₀ hbQ, hcast]
    have hubQ : ((a : ℕ) : ℚ) ≤ ((b : ℕ) : ℚ) * ((q : ℕ) : ℚ) := by
      exact_mod_cast hub
    nlinarith [hubQ]

/-- A successful attempt returns a cost computed from its own token counts by
the pricing formula. -/
theorem attemptOutcome_ok_cost (resp : Except String ChatResponse) (out : GenOutput)
    (h : attemptOutcome resp = Except.ok out) :
    out.cost = computeCost out.tokenUsage.promptTokens out.tokenUsage.completionTokens := by
  unfold attemptOutcome at h
  split at h
  · cases h
  · split at h
    · cases h
    · split at h
      · cases h
      · injection h with hout
        subst hout
        rfl

/-- Whatever the retry loop returns on success came from one of the attempts. -/
theorem retryAux_ok_inv (oracle : Nat → Except String ChatResponse) :
    ∀ (rem rc : Nat) (out : GenOutput) (ws : List Nat),
    retryAux oracle rc rem = (Except.ok out, ws) →
    ∃ i, attemptOutcome (oracle i) = Except.ok out := by
  intro rem
  induction rem with
  | zero =>
    intro rc out ws h
    simp only [retryAux] at h
    split at h
    next out' hh =>
      injection h with h1 h2
      injection h1 with h1
      exact ⟨rc, by rw [hh, h1]⟩
    next e hh =>
      injection h with h1 h2
      cases h1
  | succ n ih =>
    intro rc out ws h
    simp only [retryAux] at h
    split at h
    next out' hh =>
      injection h with h1 h2
      injection h1 with h1
      exact ⟨rc, by rw [hh, h1]⟩
    next e hh =>
      cases hrec : retryAux oracle (rc + 1) n with
      | mk fst snd =>
        rw [hrec] at h
        injection h with h1 h2
        subst h1
        exact ih (rc + 1) out snd hrec

/-- Context-character count used by the preflight estimator. -/
def preflightContextLen (ir : IssueResult) : Nat :=
  (jsOrString (ir.fields.getD {}).summary "" ++ " " ++
    jsOrString (ir.fields.getD {}).descriptionText "").length

/-- C8: the preflight estimate is `estimatedTokens = ceil(C/4) + 200*k`
(equivalently `(C+3)/4 + 200*k`) and
`estimatedCost = (estimatedTokens/1e6)*0.15 + (8000/1e6)*0.60`, where `C` is
the context-character count and `k` the number of detected image attachments;
and every successful generation persists
`cost = (promptTokens/1e6)*0.15 + (completionTokens/1e6)*0.60` for its own
token usage. -/
theorem C8_cost_model (issueKey : String) (ir : IssueResult) (imgs : List Attachment)
    (hKey : issueKey ≠ "") (hSucc : ir.success = true)
    (hFilter : filterImageAttachments (ir.fields.getD {}).attachment = Except.ok imgs) :
    (∃ tokens cost, preflightHandler issueKey ir = PreflightOutcome.estimate tokens cost ∧
      tokens = ⌈(preflightContextLen ir : ℚ) / 4⌉ + imgs.length * 200 ∧
      tokens = (((preflightContextLen ir + 3) / 4 + imgs.length * 200 : ℕ) : ℤ) ∧
      cost = ((tokens : ℚ) / 1000000) * 0.15 + ((8000 : ℚ) / 1000000) * 0.60) ∧
    (∀ pt ct : Nat,
      computeCost pt ct = ((pt : ℚ) / 1000000) * 0.15 + ((ct : ℚ) / 1000000) * 0.60) ∧
    (∀ (issueKey2 email : String) (fetchIssue : Nat → IssueResult)
      (oracle : Nat → Except String ChatResponse) (startedAt now : Nat)
      (genId : String) (elapsed : ℚ) (g : Generation) (md : String),
      testcasesHandler issueKey2 email fetchIssue oracle startedAt now genId elapsed =
        TestcasesOutcome.success g md →
      ∃ tu : TokenUsage, g.tokenUsage = some tu ∧
        g.cost = some (computeCost tu.promptTokens tu.completionTokens)) := by
  refine ⟨?_, fun pt ct => rfl, ?_⟩
  · have h4 : ⌈(preflightContextLen ir : ℚ) / 4⌉ =
        ((preflightContextLen ir + 3) / 4 : ℕ) := by
      have hc := ceil_div_nat (preflightContextLen ir) 4 (by norm_num)
      have harith : preflightContextLen ir + 4 - 1 = preflightContextLen ir + 3 := by omega
      rw [harith] at hc
      rw [← hc]
      norm_num
    refine ⟨_, _, ?_, rfl, ?_, rfl⟩
    · simp [preflightHandler, hKey, hSucc, hFilter, preflightContextLen]
    · rw [h4]
      push_cast
      ring
  · intro issueKey2 email fetchIssue oracle startedAt now genId elapsed g md h
    simp only [testcasesHandler] at h
    split at h
    · cases h
    · split at h
      · cases h
      · split at h
        next e ws hh => cases h
        next out ws hh =>
          injection h with hg hmd
          subst hg
          refine ⟨out.tokenUsage, rfl, ?_⟩
          obtain ⟨i, hi⟩ := retryAux_ok_inv oracle maxRetries 0 out ws hh
          rw [show (completeGeneration (newGeneration issueKey2 email startedAt) genId
            (if out.content.startsWith "#" then out.content
             else "# Test Cases for " ++ issueKey2 ++ ": " ++
               (if jsOrString ((fetchIssue 0).fields.getD {}).summary "" = "" then "Untitled"
                else jsOrString ((fetchIssue 0).fields.getD {}).summary "") ++ "\n\n" ++
               out.content)
            (some out.cost) (some out.tokenUsage) elapsed now).cost = some out.cost from rfl]
          rw [attemptOutcome_ok_cost (oracle i) out hi]

/-- A concrete successful issue fetch with no attachments. -/
def c8Issue : IssueResult :=
  { success := true
    fields := some
      { summary := some "Login button misaligned"
        descriptionText := some "desc"
        attachment := [] } }

/-- Witness for C8 on a concrete preflight request. -/
theorem C8_witness :
    ("KAN-5" : String) ≠ "" ∧ c8Issue.success = true ∧
    filterImageAttachments (c8Issue.fields.getD {}).attachment =
      Except.ok ([] : List Attachment) ∧
    ((∃ tokens cost, preflightHandler "KAN-5" c8Issue = PreflightOutcome.estimate tokens cost ∧
        tokens = ⌈(preflightContextLen c8Issue : ℚ) / 4⌉ +
          ([] : List Attachment).length * 200 ∧
        tokens = (((preflightContextLen c8Issue + 3) / 4 +
          ([] : List Attachment).length * 200 : ℕ) : ℤ) ∧
        cost = ((tokens : ℚ) / 1000000) * 0.15 + ((8000 : ℚ) / 1000000) * 0.60) ∧
      (∀ pt ct : Nat,
        computeCost pt ct = ((pt : ℚ) / 1000000) * 0.15 + ((ct : ℚ) / 1000000) * 0.60) ∧
      (∀ (issueKey2 email : String) (fetchIssue : Nat → IssueResult)
        (oracle : Nat → Except String ChatResponse) (startedAt now : Nat)
        (genId : String) (elapsed : ℚ) (g : Generation) (md : String),
        testcasesHandler issueKey2 email fetchIssue oracle startedAt now genId elapsed =
          TestcasesOutcome.success g md →
        ∃ tu : TokenUsage, g.tokenUsage = some tu ∧
          g.cost = some (computeCost tu.promptTokens tu.completionTokens))) :=
  ⟨by decide, rfl, rfl, C8_cost_model "KAN-5" c8Issue [] (by decide) rfl rfl⟩

/-! ### C9 — pagination clamping, slicing and ordering -/

/-- C9 (amended): when the supplied query values parse as numbers (or are
absent), the effective page is `max(1, page)` ≥ 1, the effective limit is
`min(50, max(1, limit))` ∈ [1,50], the defaults are 1 and 10, the slice skips
exactly `(page-1)×limit` items of the sorted list, `pages = ceil(total/limit)
= (total+limit-1)/limit`, and the returned slice is ordered by creation time
descending. A non-numeric value makes the parsed number `NaN`, which
propagates instead of being clamped. -/
theorem C9_pagination :
    (∀ (s : String) (p : Int), parseIntJS s = some p →
      effPage (some s) = some (max 1 p) ∧ 1 ≤ max 1 p) ∧
    effPage none = some 1 ∧
    effLimit none = some 10 ∧
    (∀ (s : String) (l : Int), parseIntJS s = some l →
      effLimit (some s) = some (min 50 (max 1 l)) ∧
      1 ≤ min 50 (max 1 l) ∧ min 50 (max 1 l) ≤ 50) ∧
    (∀ p l : Int, skipOf (some p) (some l) = some ((p - 1) * l)) ∧
    (∀ (total limit : Nat), 1 ≤ limit →
      pagesOf total limit = (((total + limit - 1) / limit : ℕ) : ℤ)) ∧
    (∀ (db : List Generation) (r ft : String) (skip limit : Nat),
      List.Sorted byCreatedAtDesc (listPage db r ft skip limit)) ∧
    (∀ (db : List Generation) (r ft : String) (skip limit : Nat),
      listPage db r ft skip limit =
        ((sortByCreatedAtDesc (db.filter (matchesFilter ft r))).drop skip).take limit) := by
  have hparse_empty : parseIntJS "" = none := rfl
  refine ⟨?_, by decide, by decide, ?_, fun p l => rfl, ?_, ?_, fun db r ft skip limit => rfl⟩
  · intro s p hp
    have hs : s ≠ "" := by
      intro he
      rw [he, hparse_empty] at hp
      cases hp
    constructor
    · simp [effPage, jsOrString, hs, hp, jsMax]
    · exact le_max_left 1 p
  · intro s l hp
    have hs : s ≠ "" := by
      intro he
      rw [he, hparse_empty] at hp
      cases hp
    refine ⟨?_, ?_, ?_⟩
    · simp [effLimit, jsOrString, hs, hp, jsMax, jsMin]
    · rw [le_min_iff]
      exact ⟨by norm_num, le_max_left 1 l⟩
    · exact min_le_left 50 _
  · intro total limit hl
    unfold pagesOf
    have hcast : (((limit : ℕ) : ℤ) : ℚ) = ((limit : ℕ) : ℚ) := by push_cast; ring
    rw [hcast, ceil_div_nat total limit hl]
  · intro db r ft skip limit
    have hs : List.Sorted byCreatedAtDesc
        (sortByCreatedAtDesc (db.filter (matchesFilter ft r))) :=
      List.sorted_insertionSort byCreatedAtDesc _
    exact List.Pairwise.sublist
      ((List.take_sublist _ _).trans (List.drop_sublist _ _)) hs

/-- Witness for C9 at concrete query strings. -/
theorem C9_witness :
    parseIntJS "3" = some 3 ∧ parseIntJS "100" = some 100 ∧ (1 ≤ (10 : ℕ)) ∧
    (effPage (some "3") = some (max 1 3) ∧ (1 : ℤ) ≤ max 1 3) ∧
    (effLimit (some "100") = some (min 50 (max 1 100)) ∧
      (1 : ℤ) ≤ min 50 (max 1 100) ∧ (min 50 (max 1 100) : ℤ) ≤ 50) ∧
    pagesOf 25 ((10 : ℕ) : ℤ) = (((25 + 10 - 1) / 10 : ℕ) : ℤ) ∧
    List.Sorted byCreatedAtDesc
      (listPage [sampleDoc, failedDoc] "qa@example.com" "all" 0 10) :=
  ⟨by decide, by decide, by decide,
    C9_pagination.1 "3" 3 (by decide),
    C9_pagination.2.2.2.1 "100" 100 (by decide),
    C9_pagination.2.2.2.2.2.1 25 10 (by decide),
    C9_pagination.2.2.2.2.2.2.1 [sampleDoc, failedDoc] "qa@example.com" "all" 0 10⟩

/-- Counterexample to C9 as stated: a non-numeric `page` parameter parses to
`NaN`; `Math.max(1, NaN)` is `NaN`, so no effective page ≥ 1 exists and the
skip becomes `NaN` too. -/
theorem C9_counterexample :
    effPage (some "abc") = none ∧ effLimit (some "xyz") = none ∧
    skipOf (effPage (some "abc")) (effLimit none) = none ∧
    ¬ ∃ p : Int, effPage (some "abc") = some p ∧ 1 ≤ p := by
  refine ⟨by decide, by decide, by decide, ?_⟩
  rintro ⟨p, hp, _⟩
  rw [show effPage (some "abc") = none from by decide] at hp
  cases hp

/-! ### C10 — only manual mode is reachable over HTTP -/

/-- C10: every generation created by `POST /testcases` has `mode = manual`;
the route calls `generateTestCase(context, issueKey)` without the `autoMode`
flag, so the default `false` selects the manual system prompt, and the auto
prompt (a distinct string) is unreachable from the HTTP surface. -/
theorem C10_manual_mode_only (context issueKey email : String) (startedAt : Nat) :
    (newGeneration issueKey email startedAt).mode = some Mode.manual ∧
    generateTestCaseMessages context issueKey =
      [{ role := "system", content := MANUAL_PROMPT },
       { role := "user", content := "\n\nJIRA issue: " ++ issueKey ++ "\n\n" ++ context }] ∧
    systemPromptFor false = MANUAL_PROMPT ∧
    systemPromptFor true = AUTO_PROMPT ∧
    MANUAL_PROMPT ≠ AUTO_PROMPT ∧
    (∀ (fetchIssue : Nat → IssueResult) (oracle : Nat → Except String ChatResponse)
      (now : Nat) (genId : String) (elapsed : ℚ) (g : Generation) (md : String),
      testcasesHandler issueKey email fetchIssue oracle startedAt now genId elapsed =
        TestcasesOutcome.success g md → g.mode = some Mode.manual) := by
  refine ⟨rfl, rfl, rfl, rfl, by decide, ?_⟩
  intro fetchIssue oracle now genId elapsed g md h
  simp only [testcasesHandler] at h
  split at h
  · cases h
  · split at h
    · cases h
    · split at h
      next e ws hh => cases h
      next out ws hh =>
        injection h with hg _
        subst hg
        rfl
